import Mathlib

/-!
Verification of the ticket-booking core (`src/main.py`, `src/db.py`,
`src/schemas.py`) against its specification.

Embedding conventions:
- Timestamps are integers measured in minutes (the only time arithmetic in
  the source adds `timedelta(minutes=ttl)` to `datetime.now()`, and the TTL
  policy window is stated in minutes).
- UUIDs are `Nat`; the freshly generated ids (`uuid.uuid4`) and the freshly
  generated payment token (`secrets.token_urlsafe(32)`) are passed to each
  operation as explicit parameters.
- Each request handler runs inside one database transaction
  (`async with db.begin()`); a raised `HTTPException` rolls it back, so an
  operation that returns an error leaves the database unchanged.  The
  embedding returns `Except ApiError (result × DB)`: an `.error` result
  carries no new state, matching the rollback.
- `db.flush()` on an insert is where the table CHECK / UNIQUE / primary-key
  constraints declared in `db.py` fire; a violation raises `IntegrityError`,
  embedded as `ApiError.integrityError`.
- The source builds several filters with the Python expression
  `not Hold.is_expired`.  `Hold.is_expired` is a SQLAlchemy instrumented
  attribute, an ordinary truthy Python object, so `not Hold.is_expired`
  evaluates to the Python constant `False` before any SQL is generated, and
  `and_` receives a literal false conjunct.  The embedding keeps that
  conjunct as the literal `false` in the corresponding row predicates.
-/

namespace TicketBooking

/-- `events` table row (`db.py`): id, name, total_seats.
Table constraint: CHECK (total_seats > 0). -/
structure Event where
  id : Nat
  name : String
  total_seats : Int
  deriving Repr, DecidableEq

/-- `holds` table row (`db.py`): id, event_id, quantity, payment_token,
expires_at, is_expired.  Table constraints: CHECK (quantity > 0),
UNIQUE (payment_token). -/
structure Hold where
  id : Nat
  event_id : Nat
  quantity : Int
  payment_token : String
  expires_at : Int
  is_expired : Bool
  deriving Repr, DecidableEq

/-- `bookings` table row (`db.py`): id, hold_id, payment_token. -/
structure Booking where
  id : Nat
  hold_id : Nat
  payment_token : String
  deriving Repr, DecidableEq

/-- The persistent store: the three tables. -/
structure DB where
  events : List Event
  holds : List Hold
  bookings : List Booking
  deriving Repr, DecidableEq

/-- Error outcomes of the request handlers.  The first six match the
HTTPExceptions raised in `main.py`; `integrityError` is SQLAlchemy's
`IntegrityError` raised at flush/commit when a table constraint is violated;
`invalidInput` is the spec's `InvalidInput` kind (a request-validation
rejection), included so that theorems can compare against it. -/
inductive ApiError where
  | eventNotFound
  | insufficientCapacity (requested available : Int)
  | holdNotFound
  | invalidToken
  | holdExpired
  | holdAlreadyBooked
  | integrityError
  | invalidInput
  deriving Repr, DecidableEq

/-- `select(Event).where(Event.id == event_id)` + `scalar_one_or_none()`. -/
def findEvent (db : DB) (eid : Nat) : Option Event :=
  db.events.find? (fun e => e.id == eid)

/-- `select(Hold).where(Hold.id == hold_id)` + `scalar_one_or_none()`. -/
def findHold (db : DB) (hid : Nat) : Option Hold :=
  db.holds.find? (fun h => h.id == hid)

/-- `Hold.id.in_(select(Booking.hold_id).where(Booking.hold_id == Hold.id))`:
some booking references this hold. -/
def isBooked (db : DB) (hid : Nat) : Bool :=
  db.bookings.any (fun b => b.hold_id == hid)

/-- `select(Booking).where(and_(Booking.hold_id == hold_id,
Booking.payment_token == payment_token))` + `scalar_one_or_none()`. -/
def findBookingByPair (db : DB) (hid : Nat) (tok : String) : Option Booking :=
  db.bookings.find? (fun b => b.hold_id == hid && b.payment_token == tok)

/-- WHERE clause of the active-holds sum in `create_hold` (main.py:193-204)
and `get_event_status` (main.py:421-432):
`and_(Hold.event_id == eid, Hold.expires_at > now, not Hold.is_expired,
~Hold.id.in_(...))`.  The third argument of `and_` is the Python value
`not Hold.is_expired` = `False` (see the header comment), rendered by
SQLAlchemy as a literal false conjunct. -/
def activeHoldWhere (db : DB) (now : Int) (eid : Nat) (h : Hold) : Bool :=
  h.event_id == eid && decide (now < h.expires_at) && false && !(isBooked db h.id)

/-- `select(coalesce(sum(Hold.quantity), 0)).where(activeHoldWhere)`:
the "held" count as the source actually computes it. -/
def heldCode (db : DB) (now : Int) (eid : Nat) : Int :=
  ((db.holds.filter (activeHoldWhere db now eid)).map Hold.quantity).sum

/-- `select(coalesce(sum(Hold.quantity), 0)).where(and_(Hold.event_id == eid,
Hold.id.in_(select(Booking.hold_id))))`: the "booked" count
(main.py:208-218, 436-446). -/
def bookedCode (db : DB) (eid : Nat) : Int :=
  ((db.holds.filter (fun h => h.event_id == eid && isBooked db h.id)).map
    Hold.quantity).sum

/-- The specification's definition of an *active* hold (spec §3): counts
against capacity when `expires_at > now AND is_expired = false AND` not yet
booked.  This is the comparison definition taken from the spec's words, to
be measured against `heldCode`, the source's computation. -/
def isActiveSpec (db : DB) (now : Int) (h : Hold) : Bool :=
  decide (now < h.expires_at) && !h.is_expired && !(isBooked db h.id)

/-- The "held" count as the specification defines it: sum of quantities of
the event's active holds.  Comparison definition (from the spec's words). -/
def heldSpec (db : DB) (now : Int) (eid : Nat) : Int :=
  ((db.holds.filter (fun h => h.event_id == eid && isActiveSpec db now h)).map
    Hold.quantity).sum

/-- Spec §3 derived aggregate invariant for one event:
`held + booked ≤ total_seats` with held/booked per the spec's definitions. -/
def specInvariant (db : DB) (now : Int) (e : Event) : Prop :=
  heldSpec db now e.id + bookedCode db e.id ≤ e.total_seats

-- ## Hold creation (`create_hold`, main.py:151-289)

/-- TTL policy constants (main.py:21-23). -/
def DEFAULT_HOLD_TTL_MINUTES : Int := 2

def MAX_HOLD_TTL_MINUTES : Int := 60

def MIN_HOLD_TTL_MINUTES : Int := 1

/-- `validate_hold_ttl` (main.py:31-36). -/
def validate_hold_ttl : Option Int → Int
  | none => DEFAULT_HOLD_TTL_MINUTES
  | some t => max MIN_HOLD_TTL_MINUTES (min t MAX_HOLD_TTL_MINUTES)

/-- `HoldRequest` (schemas.py): `qty : int` carries no positivity
constraint; `allow_partial` defaults to false; `hold_ttl_minutes` is
optional. -/
structure HoldRequest where
  event_id : Nat
  qty : Int
  allow_partial : Bool := false
  hold_ttl_minutes : Option Int := none
  deriving Repr, DecidableEq

/-- `HoldResponse` (schemas.py). -/
structure HoldResponse where
  hold_id : Nat
  expires_at : Int
  payment_token : String
  quantity_held : Int
  quantity_requested : Int
  partial_fulfillment : Bool
  deriving Repr, DecidableEq

/-- Constraint check performed by the store when a new `holds` row is
flushed (`db.py`): CHECK (quantity > 0), UNIQUE (payment_token), primary
key uniqueness on id.  `true` means the insert raises `IntegrityError`. -/
def holdInsertViolation (db : DB) (h : Hold) : Bool :=
  decide (h.quantity ≤ 0)
    || db.holds.any (fun h2 => h2.payment_token == h.payment_token)
    || db.holds.any (fun h2 => h2.id == h.id)

/-- `create_hold` (main.py:151-289).  `now` is the transaction's reference
time; `newId` the uuid4 the store assigns the row; `token` the value of
`secrets.token_urlsafe(32)`. -/
def create_hold (db : DB) (req : HoldRequest) (now : Int) (newId : Nat)
    (token : String) : Except ApiError (HoldResponse × DB) :=
  let hold_ttl := validate_hold_ttl req.hold_ttl_minutes
  match findEvent db req.event_id with
  | none => .error .eventNotFound
  | some event =>
    let active_holds := heldCode db now req.event_id
    let booked_seats := bookedCode db req.event_id
    let available := event.total_seats - (active_holds + booked_seats)
    let fulfill : Except ApiError (Int × Bool) :=
      if available < req.qty then
        if req.allow_partial && decide (0 < available) then
          .ok (available, true)
        else
          .error (.insufficientCapacity req.qty available)
      else
        .ok (req.qty, false)
    match fulfill with
    | .error e => .error e
    | .ok (quantity_to_hold, partial_fulfillment) =>
      let expires_at := now + hold_ttl
      let hold : Hold :=
        { id := newId, event_id := req.event_id, quantity := quantity_to_hold,
          payment_token := token, expires_at := expires_at, is_expired := false }
      if holdInsertViolation db hold then
        .error .integrityError
      else
        .ok ({ hold_id := newId, expires_at := expires_at,
               payment_token := token, quantity_held := quantity_to_hold,
               quantity_requested := req.qty,
               partial_fulfillment := partial_fulfillment },
             { db with holds := db.holds ++ [hold] })

-- ## Booking confirmation (`create_booking`, main.py:292-400)

/-- `BookingRequest` (schemas.py). -/
structure BookingRequest where
  hold_id : Nat
  payment_token : String
  deriving Repr, DecidableEq

/-- Constraint check when a new `bookings` row is flushed: only primary-key
uniqueness (the table's CHECK is a NOT-NULL check, trivially satisfied
here). -/
def bookingInsertViolation (db : DB) (b : Booking) : Bool :=
  db.bookings.any (fun b2 => b2.id == b.id)

/-- `create_booking` (main.py:292-400), the ConfirmBooking operation.
Returns the booking id on success. -/
def create_booking (db : DB) (req : BookingRequest) (now : Int)
    (newId : Nat) : Except ApiError (Nat × DB) :=
  match findBookingByPair db req.hold_id req.payment_token with
  | some existing => .ok (existing.id, db)
  | none =>
    match findHold db req.hold_id with
    | none => .error .holdNotFound
    | some hold =>
      if hold.payment_token != req.payment_token then
        .error .invalidToken
      else if hold.is_expired || decide (hold.expires_at ≤ now) then
        .error .holdExpired
      else if isBooked db req.hold_id then
        .error .holdAlreadyBooked
      else
        let booking : Booking :=
          { id := newId, hold_id := req.hold_id,
            payment_token := req.payment_token }
        if bookingInsertViolation db booking then
          .error .integrityError
        else
          .ok (newId, { db with bookings := db.bookings ++ [booking] })

-- ## Event status (`get_event_status`, main.py:403-455)

/-- `EventStatusResponse` (schemas.py). -/
structure EventStatusResponse where
  total : Int
  available : Int
  held : Int
  booked : Int
  deriving Repr, DecidableEq

/-- `get_event_status` (main.py:403-455). -/
def get_event_status (db : DB) (eid : Nat) (now : Int) :
    Except ApiError EventStatusResponse :=
  match findEvent db eid with
  | none => .error .eventNotFound
  | some event =>
    let held_seats := heldCode db now eid
    let booked_seats := bookedCode db eid
    .ok { total := event.total_seats,
          available := event.total_seats - held_seats - booked_seats,
          held := held_seats, booked := booked_seats }

-- ## Expiry sweeper (`cleanup_expired_holds`, main.py:40-76)

/-- WHERE clause of the sweeper's count query (main.py:49-53):
`and_(Hold.expires_at <= now, not Hold.is_expired)`.  The second argument
of `and_` is again the Python value `not Hold.is_expired` = `False`. -/
def cleanupWhere (now : Int) (h : Hold) : Bool :=
  decide (h.expires_at ≤ now) && false

/-- One cycle of the background sweeper (main.py:40-76): count the holds
matching `cleanupWhere`; only when the count is positive, run the raw
`UPDATE holds SET is_expired = true WHERE expires_at <= now AND
is_expired = false` and commit. -/
def cleanup_expired_holds_cycle (db : DB) (now : Int) : DB :=
  let expired_count := (db.holds.filter (cleanupWhere now)).length
  if 0 < expired_count then
    { db with
      holds := db.holds.map (fun h =>
        if decide (h.expires_at ≤ now) && !h.is_expired then
          { h with is_expired := true }
        else h) }
  else db

/-- Number of booking rows stored for an idempotency key `(hid, tok)`. -/
def pairCount (db : DB) (hid : Nat) (tok : String) : Nat :=
  (db.bookings.filter
    (fun b => b.hold_id == hid && b.payment_token == tok)).length

-- ## Concrete database states used by the individual claims

/-- A one-seat event, as in the spec's concurrency scenario. -/
def C1_event : Event := { id := 0, name := "show", total_seats := 1 }

def C1_db0 : DB := { events := [C1_event], holds := [], bookings := [] }

def C1_req : HoldRequest := { event_id := 0, qty := 1 }

def C1_db1 : DB :=
  { events := [C1_event], holds := [⟨1, 0, 1, "a", 2, false⟩], bookings := [] }

def C1_db2 : DB :=
  { events := [C1_event],
    holds := [⟨1, 0, 1, "a", 2, false⟩, ⟨2, 0, 1, "b", 2, false⟩],
    bookings := [] }

/-- Ten-seat event with one live hold of quantity 3 (expires at 5, flag
clear, unbooked), queried at time 0. -/
def C2_db : DB :=
  { events := [{ id := 0, name := "concert", total_seats := 10 }],
    holds := [⟨1, 0, 3, "t", 5, false⟩], bookings := [] }

/-- A live hold of quantity 2 with token "tok", not yet booked. -/
def C3_db : DB :=
  { events := [{ id := 0, name := "e", total_seats := 5 }],
    holds := [⟨1, 0, 2, "tok", 10, false⟩], bookings := [] }

/-- `C3_db` after the first successful confirmation (booking id 5). -/
def C3_db1 : DB :=
  { events := [{ id := 0, name := "e", total_seats := 5 }],
    holds := [⟨1, 0, 2, "tok", 10, false⟩], bookings := [⟨5, 1, "tok"⟩] }

def C4_hold : Hold := ⟨1, 0, 2, "good", 10, false⟩

/-- A live hold whose stored token is "good". -/
def C4_db : DB :=
  { events := [{ id := 0, name := "e", total_seats := 5 }],
    holds := [C4_hold], bookings := [] }

/-- The spec's partial-fulfillment scenario: 3 seats available. -/
def C5_db : DB :=
  { events := [{ id := 0, name := "e", total_seats := 3 }],
    holds := [], bookings := [] }

def C5_req : HoldRequest := { event_id := 0, qty := 10, allow_partial := true }

def C6_hold : Hold := ⟨1, 0, 2, "t", 10, false⟩

/-- A hold of quantity 2 that has already been booked (booking id 5 carries
the hold's own token "t"). -/
def C6_db : DB :=
  { events := [{ id := 0, name := "e", total_seats := 10 }],
    holds := [C6_hold], bookings := [⟨5, 1, "t"⟩] }

/-- A five-seat event with no holds. -/
def C7_db : DB :=
  { events := [{ id := 0, name := "e", total_seats := 5 }],
    holds := [], bookings := [] }

def C8_db : DB :=
  { events := [{ id := 0, name := "e", total_seats := 5 }],
    holds := [], bookings := [] }

def C8_req : HoldRequest :=
  { event_id := 0, qty := 1, hold_ttl_minutes := some 1000 }

def C8_resp : HoldResponse :=
  { hold_id := 1, expires_at := 60, payment_token := "t",
    quantity_held := 1, quantity_requested := 1, partial_fulfillment := false }

def C8_db1 : DB :=
  { events := [{ id := 0, name := "e", total_seats := 5 }],
    holds := [⟨1, 0, 1, "t", 60, false⟩], bookings := [] }

/-- A hold that is overdue at time 10 (expires_at 5) and not yet flagged. -/
def C9_db : DB :=
  { events := [{ id := 0, name := "e", total_seats := 5 }],
    holds := [⟨1, 0, 2, "t", 5, false⟩], bookings := [] }

/-- A hold that is expired both by flag and by timestamp, with its booking
(id 5) already recorded under the matching token. -/
def C10_db : DB :=
  { events := [{ id := 0, name := "e", total_seats := 5 }],
    holds := [⟨1, 0, 2, "t", 0, true⟩], bookings := [⟨5, 1, "t"⟩] }

-- ## Helper lemmas

/-- The sweeper's counting filter is unsatisfiable: its second conjunct is
the literal `false` that Python's `not Hold.is_expired` produced, so no row
ever matches and the guarded UPDATE never runs. -/
theorem cleanup_cycle_is_noop (db : DB) (now : Int) :
    cleanup_expired_holds_cycle db now = db := by
  unfold cleanup_expired_holds_cycle
  have hnil : db.holds.filter (cleanupWhere now) = [] := by
    simp [cleanupWhere]
  simp [hnil]

/-- The clamp in `validate_hold_ttl` keeps every effective TTL in
`[MIN, MAX]` minutes. -/
theorem validate_hold_ttl_bounds (o : Option Int) :
    MIN_HOLD_TTL_MINUTES ≤ validate_hold_ttl o ∧
      validate_hold_ttl o ≤ MAX_HOLD_TTL_MINUTES := by
  cases o <;>
    simp [validate_hold_ttl, DEFAULT_HOLD_TTL_MINUTES, MIN_HOLD_TTL_MINUTES,
      MAX_HOLD_TTL_MINUTES]

-- ## Claims

/-- C1: the no-overselling invariant `held + booked ≤ total_seats` (held and
booked per the spec's definitions) is violated by the code: on a one-seat
event, two successive `create_hold` calls of quantity 1 both succeed, because
the source's active-holds filter contains the constant-false conjunct that
Python's `not Hold.is_expired` produced, so `create_hold` always computes the
held count as 0.  After the two calls the active held quantity is 2 > 1. -/
theorem C1_oversell_two_holds_on_one_seat :
    create_hold C1_db0 C1_req 0 1 "a" =
      .ok ({ hold_id := 1, expires_at := 2, payment_token := "a",
             quantity_held := 1, quantity_requested := 1,
             partial_fulfillment := false }, C1_db1) ∧
    create_hold C1_db1 C1_req 0 2 "b" =
      .ok ({ hold_id := 2, expires_at := 2, payment_token := "b",
             quantity_held := 1, quantity_requested := 1,
             partial_fulfillment := false }, C1_db2) ∧
    C1_event ∈ C1_db0.events ∧ C1_event.total_seats = 1 ∧
    heldSpec C1_db2 0 C1_event.id + bookedCode C1_db2 C1_event.id = 2 ∧
    ¬ specInvariant C1_db2 0 C1_event := by
  refine ⟨rfl, rfl, by decide, rfl, rfl, ?_⟩
  unfold specInvariant
  decide

/-- C2: `get_event_status` does not return `held` equal to the sum of the
event's active hold quantities: with one active hold of quantity 3 on a
ten-seat event it reports `held = 0` and `available = 10`, while the claim's
definition of held gives 3 (and available 7).  The `booked` component and
the formula `available = total - held - booked` do follow the code's own
(miscounted) held value. -/
theorem C2_event_status_held_is_always_zero :
    get_event_status C2_db 0 0 =
      .ok { total := 10, available := 10, held := 0, booked := 0 } ∧
    heldSpec C2_db 0 0 = 3 ∧
    heldCode C2_db 0 0 ≠ heldSpec C2_db 0 0 := by
  exact ⟨rfl, rfl, by decide⟩

/-- C9: the expiry sweeper marks nothing, ever.  Its guarding count query
`and_(Hold.expires_at <= now, not Hold.is_expired)` carries the Python
constant `False` as second conjunct, so the count is always 0 and the UPDATE
never executes: a full cycle is the identity on the store.  In particular
the overdue hold of `C9_db` (expires_at 5 ≤ now = 10, flag clear) keeps
`is_expired = false`, where the claim requires it to be set. -/
theorem C9_sweeper_cycle_changes_nothing :
    cleanup_expired_holds_cycle C9_db 10 = C9_db ∧
    C9_db.holds.map Hold.is_expired = [false] ∧
    ∀ db now, cleanup_expired_holds_cycle db now = db := by
  exact ⟨cleanup_cycle_is_noop C9_db 10, rfl, cleanup_cycle_is_noop⟩

/-- Success analysis of `create_booking`: either the idempotency lookup hit
an existing booking and the store is untouched, or no booking existed for
the pair and exactly the one new row was appended. -/
theorem create_booking_ok_cases (db : DB) (req : BookingRequest) (now : Int)
    (nid bid : Nat) (db1 : DB)
    (h : create_booking db req now nid = .ok (bid, db1)) :
    (∃ b, findBookingByPair db req.hold_id req.payment_token = some b ∧
      bid = b.id ∧ db1 = db) ∨
    (findBookingByPair db req.hold_id req.payment_token = none ∧ bid = nid ∧
      db1 = { db with
        bookings := db.bookings ++ [⟨nid, req.hold_id, req.payment_token⟩] }) := by
  unfold create_booking at h
  split at h
  case _ b heq =>
    left
    simp only [Except.ok.injEq, Prod.mk.injEq] at h
    exact ⟨b, heq, h.1.symm, h.2.symm⟩
  case _ heq =>
    right
    split at h
    case _ => simp at h
    case _ hold hhold =>
      split at h
      case _ => simp at h
      case _ =>
        split at h
        case _ => simp at h
        case _ =>
          split at h
          case _ => simp at h
          case _ =>
            dsimp only at h
            split at h
            case _ => simp at h
            case _ =>
              simp only [Except.ok.injEq, Prod.mk.injEq] at h
              exact ⟨heq, h.1.symm, h.2.symm⟩

/-- C3: ConfirmBooking is idempotent.  If a call with the pair
`(hold_id, payment_token)` succeeds with booking id `bid` and committed
state `db1`, then — provided the store held at most one booking row for that
pair, as every reachable state does — a repeat call with the same pair (at
any later time, with any fresh candidate id) returns the same id `bid` and
the unchanged state `db1`, and `db1` holds exactly one booking row for the
pair. -/
theorem C3_confirm_booking_idempotent (db : DB) (req : BookingRequest)
    (now1 now2 : Int) (id1 id2 bid : Nat) (db1 : DB)
    (hcount : pairCount db req.hold_id req.payment_token ≤ 1)
    (h1 : create_booking db req now1 id1 = .ok (bid, db1)) :
    create_booking db1 req now2 id2 = .ok (bid, db1) ∧
    pairCount db1 req.hold_id req.payment_token = 1 := by
  rcases create_booking_ok_cases db req now1 id1 bid db1 h1 with
    ⟨b, hfb, hbid, hdb⟩ | ⟨hfb, hbid, hdb⟩
  · subst hdb
    constructor
    · unfold create_booking
      rw [hfb, hbid]
    · unfold findBookingByPair at hfb
      have hpb := List.find?_some hfb
      have hmemb := List.mem_of_find?_eq_some hfb
      have hmemf : b ∈ db1.bookings.filter
          (fun x => x.hold_id == req.hold_id &&
            x.payment_token == req.payment_token) :=
        List.mem_filter.mpr ⟨hmemb, hpb⟩
      have hpos : 0 < pairCount db1 req.hold_id req.payment_token :=
        List.length_pos_of_mem hmemf
      exact Nat.le_antisymm hcount hpos
  · have hfb' := hfb
    unfold findBookingByPair at hfb'
    rw [List.find?_eq_none] at hfb'
    have hfe : db.bookings.filter
        (fun b => b.hold_id == req.hold_id &&
          b.payment_token == req.payment_token) = [] :=
      List.filter_eq_nil_iff.mpr hfb'
    subst hdb
    subst hbid
    have hnewpair : findBookingByPair
        { db with bookings :=
            db.bookings ++ [⟨bid, req.hold_id, req.payment_token⟩] }
        req.hold_id req.payment_token =
          some ⟨bid, req.hold_id, req.payment_token⟩ := by
      unfold findBookingByPair at hfb ⊢
      simp only [List.find?_append, hfb, Option.none_or]
      simp
    constructor
    · unfold create_booking
      rw [hnewpair]
    · unfold pairCount
      simp [List.filter_append, hfe]

/-- C3 witness: on `C3_db` (a live hold, no bookings) the first confirmation
with token "tok" yields booking id 5 and state `C3_db1`; replaying it
returns the same id, leaves the state unchanged, and exactly one booking row
exists for the pair. -/
theorem C3_witness :
    create_booking C3_db1 { hold_id := 1, payment_token := "tok" } 0 7 =
      .ok (5, C3_db1) ∧
    pairCount C3_db1 1 "tok" = 1 :=
  C3_confirm_booking_idempotent C3_db ⟨1, "tok"⟩ 0 0 5 7 5 C3_db1 (by decide)
    rfl

/-- C4: error conditions of ConfirmBooking when no booking exists for the
`(hold_id, payment_token)` pair: an unresolvable hold id fails with
HoldNotFound; a token differing from the hold's stored token fails with
InvalidToken whatever the hold's state (a wrong token never succeeds); and a
matching token on a hold whose `is_expired` flag is set or whose
`expires_at ≤ now` fails with HoldExpired. -/
theorem C4_confirm_error_conditions (db : DB) (req : BookingRequest)
    (now : Int) (nid : Nat)
    (hpair : findBookingByPair db req.hold_id req.payment_token = none) :
    (findHold db req.hold_id = none →
      create_booking db req now nid = .error .holdNotFound) ∧
    (∀ hold, findHold db req.hold_id = some hold →
      hold.payment_token ≠ req.payment_token →
      create_booking db req now nid = .error .invalidToken) ∧
    (∀ hold, findHold db req.hold_id = some hold →
      hold.payment_token = req.payment_token →
      (hold.is_expired = true ∨ hold.expires_at ≤ now) →
      create_booking db req now nid = .error .holdExpired) := by
  unfold create_booking
  rw [hpair]
  refine ⟨fun hnone => by rw [hnone], fun hold hh hne => ?_,
    fun hold hh htok hexp => ?_⟩
  · rw [hh]
    simp [bne, hne]
  · rw [hh]
    rcases hexp with h1 | h1 <;> simp [bne, htok, h1]

/-- C4 witness: on `C4_db` (hold 1 stores token "good", no bookings),
presenting token "bad" is rejected with InvalidToken. -/
theorem C4_witness :
    create_booking C4_db { hold_id := 1, payment_token := "bad" } 0 9 =
      .error .invalidToken :=
  (C4_confirm_error_conditions C4_db ⟨1, "bad"⟩ 0 9 rfl).2.1 C4_hold rfl
    (by decide)

/-- C5: the fulfillment policy of `create_hold`, relative to the available
count the code computes inside its transaction
(`total_seats - (heldCode + bookedCode)`), on an existing event with a
positive requested quantity and a fresh token and id: if
`requested ≤ available` the hold is granted in full with
`partial_fulfillment = false`; if `available < requested`, partial
fulfillment is allowed and `available > 0`, the hold is granted for exactly
`available` seats with `quantity_requested` the original request and
`partial_fulfillment = true`; otherwise the call fails with
InsufficientCapacity carrying the requested and available counts (and, the
result being an error, no hold row is written: the transaction rolls
back). -/
theorem C5_fulfillment_policy (db : DB) (req : HoldRequest) (now avail : Int)
    (nid : Nat) (tok : String) (event : Event)
    (hev : findEvent db req.event_id = some event)
    (hav : avail = event.total_seats -
      (heldCode db now req.event_id + bookedCode db req.event_id))
    (hqty : 0 < req.qty)
    (htok : ∀ h ∈ db.holds, h.payment_token ≠ tok)
    (hid : ∀ h ∈ db.holds, h.id ≠ nid) :
    (req.qty ≤ avail →
      create_hold db req now nid tok =
        .ok ({ hold_id := nid,
               expires_at := now + validate_hold_ttl req.hold_ttl_minutes,
               payment_token := tok, quantity_held := req.qty,
               quantity_requested := req.qty, partial_fulfillment := false },
             { db with holds := db.holds ++
                 [⟨nid, req.event_id, req.qty, tok,
                   now + validate_hold_ttl req.hold_ttl_minutes, false⟩] })) ∧
    (avail < req.qty → req.allow_partial = true → 0 < avail →
      create_hold db req now nid tok =
        .ok ({ hold_id := nid,
               expires_at := now + validate_hold_ttl req.hold_ttl_minutes,
               payment_token := tok, quantity_held := avail,
               quantity_requested := req.qty, partial_fulfillment := true },
             { db with holds := db.holds ++
                 [⟨nid, req.event_id, avail, tok,
                   now + validate_hold_ttl req.hold_ttl_minutes, false⟩] })) ∧
    (avail < req.qty → (req.allow_partial = false ∨ avail ≤ 0) →
      create_hold db req now nid tok =
        .error (.insufficientCapacity req.qty avail)) := by
  have hviol : ∀ q e, holdInsertViolation db
      ⟨nid, req.event_id, q, tok, e, false⟩ = decide (q ≤ 0) := by
    intro q e
    unfold holdInsertViolation
    have h1 : (db.holds.any fun h2 => h2.payment_token == tok) = false := by
      rw [List.any_eq_false]
      intro x hx
      simp only [beq_iff_eq]
      exact htok x hx
    have h2 : (db.holds.any fun h2 => h2.id == nid) = false := by
      rw [List.any_eq_false]
      intro x hx
      simp only [beq_iff_eq]
      exact hid x hx
    rw [h1, h2]
    simp
  subst hav
  refine ⟨fun hle => ?_, fun hlt hpart hpos => ?_, fun hlt hno => ?_⟩
  · unfold create_hold
    rw [hev]
    dsimp only
    rw [if_neg (not_lt.mpr hle)]
    dsimp only
    rw [hviol req.qty (now + validate_hold_ttl req.hold_ttl_minutes)]
    rw [if_neg (by simpa using not_le.mpr hqty)]
  · unfold create_hold
    rw [hev]
    dsimp only
    rw [if_pos hlt]
    rw [if_pos (by simp [hpart, hpos])]
    dsimp only
    rw [hviol _ (now + validate_hold_ttl req.hold_ttl_minutes)]
    rw [if_neg (by simpa using not_le.mpr hpos)]
  · unfold create_hold
    rw [hev]
    dsimp only
    rw [if_pos hlt]
    rw [if_neg (by
      rcases hno with h | h
      · simp [h]
      · simp [not_lt.mpr h])]

/-- C5 witness: the spec's arithmetic scenario — 3 seats available,
10 requested, partial allowed — grants a hold of 3 with
`quantity_requested = 10` and `partial_fulfillment = true`. -/
theorem C5_witness :
    create_hold C5_db C5_req 0 1 "t" =
      .ok ({ hold_id := 1, expires_at := 2, payment_token := "t",
             quantity_held := 3, quantity_requested := 10,
             partial_fulfillment := true },
           { C5_db with holds := C5_db.holds ++ [⟨1, 0, 3, "t", 2, false⟩] }) :=
  (C5_fulfillment_policy C5_db C5_req 0 3 1 "t" ⟨0, "e", 3⟩ rfl rfl
    (by decide) (by decide) (by decide)).2.1 (by decide) rfl (by decide)

/-- C6 counterexample: on `C6_db`, where hold 1 (token "t") is already
booked, a confirmation attempt with the different token "u" fails with
InvalidToken — not with the Conflict error HoldAlreadyBooked the claim
names. -/
theorem C6_counterexample :
    create_booking C6_db { hold_id := 1, payment_token := "u" } 0 9 =
      .error .invalidToken ∧
    ApiError.invalidToken ≠ ApiError.holdAlreadyBooked ∧
    isBooked C6_db 1 = true := ⟨rfl, by decide, rfl⟩

/-- C6 amended: after a hold has been booked, a ConfirmBooking attempt on
the same hold with a different token fails with InvalidToken, because the
token-match check precedes the already-booked check and every booking row
for the hold carries the hold's own token (so the idempotency lookup cannot
hit either).  The result being an error, the original booking is
unchanged. -/
theorem C6_wrong_token_on_booked_hold (db : DB) (hid : Nat) (tok : String)
    (now : Int) (nid : Nat) (hold : Hold)
    (hh : findHold db hid = some hold)
    (_hbooked : isBooked db hid = true)
    (htokens : ∀ b ∈ db.bookings, b.hold_id = hid →
      b.payment_token = hold.payment_token)
    (hne : tok ≠ hold.payment_token) :
    create_booking db { hold_id := hid, payment_token := tok } now nid =
      .error .invalidToken := by
  have hpair : findBookingByPair db hid tok = none := by
    unfold findBookingByPair
    rw [List.find?_eq_none]
    intro b hb
    simp only [Bool.and_eq_true, beq_iff_eq, not_and]
    intro h1 h2
    exact hne (h2 ▸ htokens b hb h1)
  unfold create_booking
  rw [hpair, hh]
  have hne' : hold.payment_token ≠ tok := fun h => hne h.symm
  simp [bne, hne']

/-- C6 witness: the amended statement at the concrete booked hold of
`C6_db`. -/
theorem C6_witness :
    create_booking C6_db { hold_id := 1, payment_token := "u" } 10 9 =
      .error .invalidToken :=
  C6_wrong_token_on_booked_hold C6_db 1 "u" 10 9 C6_hold rfl rfl (by decide)
    (by decide)

/-- C7 counterexample: `create_hold` with quantity 0 on a five-seat event
does not fail with an InvalidInput validation error before any mutation —
the request schema carries no positivity constraint and the handler never
checks the quantity, so the insert is attempted and the store's
`quantity > 0` CHECK constraint rejects it at flush, surfacing as an
IntegrityError. -/
theorem C7_counterexample :
    create_hold C7_db { event_id := 0, qty := 0 } 0 1 "t" =
      .error .integrityError ∧
    ApiError.integrityError ≠ ApiError.invalidInput := ⟨rfl, by decide⟩

/-- C7 amended: a CreateHold call with requested quantity ≤ 0 never
succeeds and no hold is committed — the call fails, with EventNotFound,
InsufficientCapacity, or the store's quantity CHECK constraint at insert
time (IntegrityError), rather than with an application-level InvalidInput
validation error. -/
theorem C7_nonpositive_qty_never_creates_hold (db : DB) (req : HoldRequest)
    (now : Int) (nid : Nat) (tok : String) (hq : req.qty ≤ 0) :
    ∃ e, create_hold db req now nid tok = .error e := by
  unfold create_hold
  rcases hev : findEvent db req.event_id with _ | event
  · exact ⟨.eventNotFound, rfl⟩
  · dsimp only
    by_cases hlt : event.total_seats -
        (heldCode db now req.event_id + bookedCode db req.event_id) < req.qty
    · rw [if_pos hlt]
      rw [if_neg (by
        simp only [Bool.and_eq_true, decide_eq_true_eq, not_and]
        intro _
        omega)]
      exact ⟨.insufficientCapacity req.qty _, rfl⟩
    · rw [if_neg hlt]
      dsimp only
      rw [if_pos (by
        unfold holdInsertViolation
        simp [hq])]
      exact ⟨.integrityError, rfl⟩

/-- C7 witness: quantity −3 on the five-seat event fails. -/
theorem C7_witness :
    ∃ e, create_hold C7_db { event_id := 0, qty := -3 } 0 1 "t" = .error e :=
  C7_nonpositive_qty_never_creates_hold C7_db ⟨0, -3, false, none⟩ 0 1 "t"
    (by decide)

/-- C8: every successful `create_hold` sets the hold's expiry to the current
time plus the effective TTL `validate_hold_ttl ttl_minutes` — 2 minutes when
unspecified, otherwise the requested value clamped into [1, 60] minutes —
so the expiry always lies within [now+1min, now+60min], and the row written
to the store carries exactly that expiry. -/
theorem C8_ttl_clamped_expiry (db : DB) (req : HoldRequest) (now : Int)
    (nid : Nat) (tok : String) (resp : HoldResponse) (db1 : DB)
    (h : create_hold db req now nid tok = .ok (resp, db1)) :
    resp.expires_at = now + validate_hold_ttl req.hold_ttl_minutes ∧
    (req.hold_ttl_minutes = none →
      resp.expires_at = now + DEFAULT_HOLD_TTL_MINUTES) ∧
    now + MIN_HOLD_TTL_MINUTES ≤ resp.expires_at ∧
    resp.expires_at ≤ now + MAX_HOLD_TTL_MINUTES ∧
    db1.holds = db.holds ++
      [⟨nid, req.event_id, resp.quantity_held, tok, resp.expires_at, false⟩] := by
  unfold create_hold at h
  split at h
  case _ => simp at h
  case _ event heq =>
    dsimp only at h
    split at h
    case _ => simp at h
    case _ q p hfulfil =>
      split at h
      case _ => simp at h
      case _ =>
        simp only [Except.ok.injEq, Prod.mk.injEq] at h
        obtain ⟨hresp, hdb1⟩ := h
        subst hresp
        subst hdb1
        refine ⟨rfl, ?_, ?_, ?_, rfl⟩
        · intro hnone
          rw [hnone]
          rfl
        · have := (validate_hold_ttl_bounds req.hold_ttl_minutes).1
          simp only
          omega
        · have := (validate_hold_ttl_bounds req.hold_ttl_minutes).2
          simp only
          omega

/-- C8 witness: a requested TTL of 1000 minutes is clamped to 60, so the
hold created at time 0 expires at 60, inside [0+1, 0+60]. -/
theorem C8_witness :
    C8_resp.expires_at = 0 + validate_hold_ttl C8_req.hold_ttl_minutes ∧
    (C8_req.hold_ttl_minutes = none →
      C8_resp.expires_at = 0 + DEFAULT_HOLD_TTL_MINUTES) ∧
    (0 : Int) + MIN_HOLD_TTL_MINUTES ≤ C8_resp.expires_at ∧
    C8_resp.expires_at ≤ 0 + MAX_HOLD_TTL_MINUTES ∧
    C8_db1.holds = C8_db.holds ++
      [⟨1, C8_req.event_id, C8_resp.quantity_held, "t", C8_resp.expires_at,
        false⟩] :=
  C8_ttl_clamped_expiry C8_db C8_req 0 1 "t" C8_resp C8_db1 rfl

/-- C10: when a booking already exists for exactly the presented
`(hold_id, payment_token)` pair, ConfirmBooking returns that booking's id
and leaves the store unchanged, with no condition on the referenced hold's
expiry — the idempotency lookup runs before the hold-expiry check. -/
theorem C10_idempotent_replay_ignores_expiry (db : DB) (req : BookingRequest)
    (now : Int) (nid : Nat) (b : Booking)
    (h : findBookingByPair db req.hold_id req.payment_token = some b) :
    create_booking db req now nid = .ok (b.id, db) := by
  unfold create_booking
  rw [h]

/-- C10 witness: on `C10_db` the hold is expired both by flag and by
timestamp (expires_at 0 ≤ now = 10, is_expired true), yet replaying the
recorded pair returns booking id 5 unchanged. -/
theorem C10_witness :
    create_booking C10_db { hold_id := 1, payment_token := "t" } 10 9 =
      .ok (5, C10_db) :=
  C10_idempotent_replay_ignores_expiry C10_db ⟨1, "t"⟩ 10 9 ⟨5, 1, "t"⟩ rfl

end TicketBooking
